import Mathlib

/-!
Shallow embedding of the event-driven agent pipeline
(`src/shared/state-machine.ts`, `src/shared/schema.ts`,
`src/shared/firestore.ts`, `src/functions/api.ts`,
`src/functions/reasoner.ts`, `src/functions/executor.ts`).

Modelling conventions:
* JavaScript runtime values (JSON documents, `unknown` inputs, event
  payloads) are modelled by the inductive type `Json`; numbers are `Rat`.
* Timestamps (`new Date().toISOString()`, `Date.now()`) are modelled as a
  single `Nat` clock value `now` threaded into every operation.
* The Firestore database is modelled as the record `Store` of association
  lists; each exported function of `firestore.ts` becomes an explicit
  state-passing function on `Store`.  A JS `throw` becomes `Except.error`
  (for store primitives) or the `HandlerOutcome.failed` constructor (for
  the Pub/Sub handlers, where a throw means nack).
* Freshly minted UUIDs (`uuidv4()`) are passed in as explicit `String`
  arguments, since the source treats them as opaque fresh identifiers.
-/

/-- JSON-like JavaScript runtime value (`unknown` in the source). -/
inductive Json where
  | null : Json
  | bool : Bool → Json
  | num  : Rat → Json
  | str  : String → Json
  | arr  : List Json → Json
  | obj  : List (String × Json) → Json

namespace Json

/-- Field access `o[k]` on a JS object: first binding wins. -/
def field (fs : List (String × Json)) (k : String) : Option Json :=
  (fs.find? (fun p => p.1 = k)).map (·.2)

/-- `j.k` on an arbitrary JS value: `undefined` (`none`) unless an object. -/
def get (j : Json) (k : String) : Option Json :=
  match j with
  | .obj fs => field fs k
  | _ => none

/-- Extract a JS string, `none` for any other runtime type. -/
def asStr : Json → Option String
  | .str s => some s
  | _ => none

/-- JavaScript truthiness of a value. -/
def jsTruthy : Json → Bool
  | .null => false
  | .bool b => b
  | .num q => q != 0
  | .str s => s != ""
  | .arr _ => true
  | .obj _ => true

end Json

-- ── State machine (`src/shared/state-machine.ts`, `src/shared/types.ts`) ──

/-- `ConversationState` from `types.ts`. -/
inductive ConversationState where
  | RECEIVED
  | REASONING_REQUESTED
  | INTENT_VALIDATED
  | ACTION_REQUESTED
  | ACTION_COMPLETED
  | FAILED_VALIDATION
  | FAILED_EXECUTION
  deriving Repr, DecidableEq, Fintype

namespace ConversationState

/-- The literal name of each state, used in error messages. -/
def name : ConversationState → String
  | .RECEIVED => "RECEIVED"
  | .REASONING_REQUESTED => "REASONING_REQUESTED"
  | .INTENT_VALIDATED => "INTENT_VALIDATED"
  | .ACTION_REQUESTED => "ACTION_REQUESTED"
  | .ACTION_COMPLETED => "ACTION_COMPLETED"
  | .FAILED_VALIDATION => "FAILED_VALIDATION"
  | .FAILED_EXECUTION => "FAILED_EXECUTION"

end ConversationState

/-- `VALID_TRANSITIONS` table from `state-machine.ts`. -/
def VALID_TRANSITIONS : ConversationState → List ConversationState
  | .RECEIVED => [.REASONING_REQUESTED]
  | .REASONING_REQUESTED => [.INTENT_VALIDATED, .FAILED_VALIDATION]
  | .INTENT_VALIDATED => [.ACTION_REQUESTED]
  | .ACTION_REQUESTED => [.ACTION_COMPLETED, .FAILED_EXECUTION]
  | .ACTION_COMPLETED => []          -- terminal
  | .FAILED_VALIDATION => []         -- terminal
  | .FAILED_EXECUTION => []          -- terminal

/-- `validateTransition` from `state-machine.ts`. -/
def validateTransition (current next : ConversationState) : Bool :=
  (VALID_TRANSITIONS current).contains next

/-- `join(', ')` / `join('; ')` semantics of JS `Array.prototype.join`. -/
def jsJoin (sep : String) : List String → String
  | [] => ""
  | [x] => x
  | x :: xs => x ++ sep ++ jsJoin sep xs

/-- The error message thrown by `assertTransition`. -/
def invalidTransitionMsg (current next : ConversationState) : String :=
  "Invalid state transition: " ++ current.name ++ " → " ++ next.name ++
  ". Allowed from " ++ current.name ++ ": [" ++
  jsJoin ", " ((VALID_TRANSITIONS current).map ConversationState.name) ++ "]"

/-- `assertTransition` from `state-machine.ts`: a JS throw is `Except.error`. -/
def assertTransition (current next : ConversationState) : Except String Unit :=
  if validateTransition current next then .ok ()
  else .error (invalidTransitionMsg current next)

-- ── Schema validator (`src/shared/schema.ts`) ──────────────

/-- A hexadecimal digit (either case), as in Zod's uuid pattern. -/
def hexDigit (c : Char) : Bool :=
  c.isDigit || ('a' ≤ c && c ≤ 'f') || ('A' ≤ c && c ≤ 'F')

/-- Zod's `z.string().uuid()` format check: five dash-separated groups of
hexadecimal digits of lengths 8-4-4-4-12. -/
def isUuid (s : String) : Bool :=
  match s.data.splitOn '-' with
  | [a, b, c, d, e] =>
      a.length = 8 && b.length = 4 && c.length = 4 && d.length = 4 &&
      e.length = 12 && (a ++ b ++ c ++ d ++ e).all hexDigit
  | _ => false

/-- The `z.enum([...])` literals of the `action` field of `IntentSchema`. -/
def actionValues : List String := ["search", "calculate", "summarize", "translate"]

/-- A path-level Zod issue: `(path.join('.'), message)`. -/
abbrev Issue := String × String

/-- `intentId: z.string().uuid()`. -/
def checkIntentId (fs : List (String × Json)) : List Issue :=
  match Json.field fs "intentId" with
  | none => [("intentId", "Required")]
  | some (.str s) => if isUuid s then [] else [("intentId", "Invalid uuid")]
  | some _ => [("intentId", "Expected string")]

/-- `z.string().min(1)` fields (`conversationId`, `messageId`). -/
def checkNonEmptyString (fs : List (String × Json)) (k : String) : List Issue :=
  match Json.field fs k with
  | none => [(k, "Required")]
  | some (.str s) =>
      if s.length = 0 then [(k, "String must contain at least 1 character(s)")]
      else []
  | some _ => [(k, "Expected string")]

/-- `action: z.enum(['search', 'calculate', 'summarize', 'translate'])`. -/
def checkAction (fs : List (String × Json)) : List Issue :=
  match Json.field fs "action" with
  | none => [("action", "Required")]
  | some (.str s) =>
      if actionValues.contains s then [] else [("action", "Invalid enum value")]
  | some _ => [("action", "Expected string")]

/-- `parameters: z.record(z.unknown())`: any plain object (arrays rejected). -/
def checkParameters (fs : List (String × Json)) : List Issue :=
  match Json.field fs "parameters" with
  | none => [("parameters", "Required")]
  | some (.obj _) => []
  | some _ => [("parameters", "Expected object")]

/-- `confidence: z.number().min(0).max(1)`. -/
def checkConfidence (fs : List (String × Json)) : List Issue :=
  match Json.field fs "confidence" with
  | none => [("confidence", "Required")]
  | some (.num q) =>
      (if q < 0 then [("confidence", "Number must be greater than or equal to 0")] else [])
      ++ (if q > 1 then [("confidence", "Number must be less than or equal to 1")] else [])
  | some _ => [("confidence", "Expected number")]

/-- `IntentSchema.safeParse`'s issue list on an arbitrary input. -/
def checkIntent (j : Json) : List Issue :=
  match j with
  | .obj fs =>
      checkIntentId fs ++ checkNonEmptyString fs "conversationId" ++
      checkNonEmptyString fs "messageId" ++ checkAction fs ++
      checkParameters fs ++ checkConfidence fs
  | _ => [("", "Expected object")]

/-- `ValidatedIntent` (`z.infer<typeof IntentSchema>`). -/
structure ValidatedIntent where
  intentId : String
  conversationId : String
  messageId : String
  action : String
  parameters : List (String × Json)
  confidence : Rat

/-- The parsed data returned by a successful `IntentSchema.safeParse`
(unknown keys are stripped). `none` exactly when parsing fails. -/
def extractIntent (j : Json) : Option ValidatedIntent :=
  match j with
  | .obj fs =>
      match Json.field fs "intentId", Json.field fs "conversationId",
            Json.field fs "messageId", Json.field fs "action",
            Json.field fs "parameters", Json.field fs "confidence" with
      | some (.str i), some (.str c), some (.str m), some (.str a),
        some (.obj p), some (.num q) =>
          if isUuid i && c.length ≠ 0 && m.length ≠ 0 &&
             actionValues.contains a && 0 ≤ q && q ≤ 1 then
            some ⟨i, c, m, a, p, q⟩
          else none
      | _, _, _, _, _, _ => none
  | _ => none

/-- `ValidationResult` from `schema.ts`. -/
structure ValidationResult where
  valid : Bool
  data : Option ValidatedIntent
  error : Option String

/-- `validateIntent` from `schema.ts`: on failure the error string is
`issues.map(i => path + ': ' + message).join('; ')`. -/
def validateIntent (raw : Json) : ValidationResult :=
  if checkIntent raw = [] then
    { valid := true, data := extractIntent raw, error := none }
  else
    { valid := false, data := none,
      error := some (jsJoin "; " ((checkIntent raw).map fun i => i.1 ++ ": " ++ i.2)) }

-- ── Spec-side intent shape (refinement target for claim C5) ──

/-- Spec wording: `intentId` is a UUID string. -/
def specIntentId (fs : List (String × Json)) : Bool :=
  match Json.field fs "intentId" with
  | some (.str s) => isUuid s
  | _ => false

/-- Spec wording: the field `k` is a non-empty string. -/
def specNonEmptyString (fs : List (String × Json)) (k : String) : Bool :=
  match Json.field fs k with
  | some (.str s) => s != ""
  | _ => false

/-- Spec wording: `action ∈ {search, calculate, summarize, translate}`. -/
def specAction (fs : List (String × Json)) : Bool :=
  match Json.field fs "action" with
  | some (.str s) => actionValues.contains s
  | _ => false

/-- Spec wording: `parameters` is a map. -/
def specParameters (fs : List (String × Json)) : Bool :=
  match Json.field fs "parameters" with
  | some (.obj _) => true
  | _ => false

/-- Spec wording: `confidence` is a number in `[0,1]`. -/
def specConfidence (fs : List (String × Json)) : Bool :=
  match Json.field fs "confidence" with
  | some (.num q) => decide (0 ≤ q) && decide (q ≤ 1)
  | _ => false

/-- Written from the spec's words (§4.4 step 4 / §4.6): the input is an
object with `intentId` a UUID string, `conversationId` and `messageId`
non-empty strings, `action` one of the four schema actions, `parameters` a
map, and `confidence` a number in `[0,1]`.  Compared against the
code-derived `validateIntent` in the C5 theorem. -/
def intentShapeSpec (j : Json) : Bool :=
  match j with
  | .obj fs =>
      specIntentId fs && specNonEmptyString fs "conversationId" &&
      specNonEmptyString fs "messageId" && specAction fs &&
      specParameters fs && specConfidence fs
  | _ => false

-- ── Document store model (`src/shared/firestore.ts`) ───────

/-- Association-list write: `doc(k).set(v)` replaces in place or appends. -/
def insertA {κ α : Type} [DecidableEq κ] (k : κ) (v : α) :
    List (κ × α) → List (κ × α)
  | [] => [(k, v)]
  | (k', v') :: rest =>
      if k' = k then (k, v) :: rest else (k', v') :: insertA k v rest

/-- Association-list read: `doc(k).get()`. -/
def lookupA {κ α : Type} [DecidableEq κ] (k : κ) :
    List (κ × α) → Option α
  | [] => none
  | (k', v') :: rest => if k' = k then some v' else lookupA k rest

/-- `Conversation` document (`types.ts`). -/
structure Conversation where
  conversationId : String
  state : ConversationState
  createdAt : Nat
  updatedAt : Nat
  deriving Repr, DecidableEq

/-- `UserMessage` document (`types.ts`). -/
structure UserMessage where
  messageId : String
  conversationId : String
  content : String
  createdAt : Nat
  idempotencyKey : Option String
  deriving Repr, DecidableEq

/-- `ReasoningIntent` document (`types.ts`).  With
`ignoreUndefinedProperties`, `validationError = none` means the field is
absent from the stored document. -/
structure ReasoningIntent where
  intentId : String
  conversationId : String
  messageId : String
  action : String
  parameters : List (String × Json)
  confidence : Rat
  createdAt : Nat
  valid : Bool
  validationError : Option String

/-- `ActionResult` document (`types.ts`). -/
structure ActionResult where
  actionId : String
  conversationId : String
  intentId : String
  messageId : String
  result : List (String × Json)
  executedAt : Nat
  success : Bool
  error : Option String

/-- Receipt document (free-form Firestore doc written by `claimReceipt` /
`completeReceipt`); every field is optional because `completeReceipt`'s
merge-upsert can create a document holding only `status`/`completedAt`. -/
structure Receipt where
  eventId : Option String
  handler : Option String
  conversationId : Option String
  messageId : Option String
  status : String
  claimedAt : Option Nat
  completedAt : Option Nat
  retriedAt : Option Nat
  deriving Repr, DecidableEq

/-- Idempotency-key document written by `claimIdempotencyKey`. -/
structure IdemKeyRecord where
  messageId : String
  createdAt : Nat
  deriving Repr, DecidableEq

/-- Event-log entry written by `logEvent`. -/
structure EventLogRecord where
  eventId : String
  eventType : String
  timestamp : Nat
  payload : List (String × Json)

/-- The Firestore database: root collections `conversations`, `receipts`,
`idempotencyKeys`, and the per-conversation subcollections keyed by
`(conversationId, docId)`. -/
structure Store where
  conversations : List (String × Conversation)
  messages : List ((String × String) × UserMessage)
  intents : List ((String × String) × ReasoningIntent)
  actions : List ((String × String) × ActionResult)
  events : List ((String × String) × EventLogRecord)
  receipts : List (String × Receipt)
  idempotencyKeys : List (String × IdemKeyRecord)

/-- `createConversation`: writes a fresh `RECEIVED` conversation document
(the source also returns it; callers discard the return value). -/
def createConversation (conversationId : String) (now : Nat) (s : Store) : Store :=
  let conversation : Conversation := ⟨conversationId, .RECEIVED, now, now⟩
  { s with conversations := insertA conversationId conversation s.conversations }

/-- `getConversation`. -/
def getConversation (conversationId : String) (s : Store) : Option Conversation :=
  lookupA conversationId s.conversations

/-- `transitionState`: transactionally read the conversation, assert the
transition, write `next` and `updatedAt`.  A thrown error aborts the
transaction leaving the store unchanged, modelled by `Except.error`. -/
def transitionState (conversationId : String) (nextState : ConversationState)
    (now : Nat) (s : Store) : Except String Store :=
  match lookupA conversationId s.conversations with
  | none => .error ("Conversation " ++ conversationId ++ " not found")
  | some current =>
      match assertTransition current.state nextState with
      | .error e => .error e
      | .ok _ =>
          let updated := { current with state := nextState, updatedAt := now }
          .ok { s with conversations := insertA conversationId updated s.conversations }

/-- `saveMessage`. -/
def saveMessage (msg : UserMessage) (s : Store) : Store :=
  { s with messages := insertA (msg.conversationId, msg.messageId) msg s.messages }

/-- `RECEIPT_STALE_THRESHOLD_MS = 2 * 60 * 1000`. -/
def RECEIPT_STALE_THRESHOLD_MS : Nat := 2 * 60 * 1000

/-- Metadata argument of `claimReceipt`. -/
structure ReceiptMeta where
  handler : String
  conversationId : String
  messageId : String
  deriving Repr, DecidableEq

/-- The receipt document freshly written by `claimReceipt` on first claim. -/
def freshReceipt (eventId : String) (meta : ReceiptMeta) (now : Nat) : Receipt where
  eventId := some eventId
  handler := some meta.handler
  conversationId := some meta.conversationId
  messageId := some meta.messageId
  status := "processing"
  claimedAt := some now
  completedAt := none
  retriedAt := none

/-- `claimReceipt`: the transactional deduplication primitive.  `now` is the
single clock behind both `Date.now()` and `new Date().toISOString()`; with
`Nat` subtraction a `claimedAt` in the future yields age `0 <` threshold,
matching the negative-age behaviour of the source. -/
def claimReceipt (eventId : String) (meta : ReceiptMeta) (now : Nat)
    (s : Store) : Bool × Store :=
  match lookupA eventId s.receipts with
  | some data =>
      -- Already completed — genuine duplicate, skip.
      if data.status = "completed" then (false, s)
      else
        match data.claimedAt with
        | some claimedAt =>
            if data.status = "processing" then
              if now - claimedAt < RECEIPT_STALE_THRESHOLD_MS then
                (false, s)                      -- another instance is active
              else
                -- Stale receipt — reclaim for retry.
                let upd := { data with status := "processing", claimedAt := some now, retriedAt := some now }
                (true, { s with receipts := insertA eventId upd s.receipts })
            else (false, s)                     -- unknown status — safe default
        | none => (false, s)                    -- unknown status — safe default
  | none =>
      -- No receipt — first attempt.
      (true, { s with receipts := insertA eventId (freshReceipt eventId meta now) s.receipts })

/-- `completeReceipt`: `set({status, completedAt}, {merge: true})` — an
upsert that keeps any existing fields and never fails. -/
def completeReceipt (eventId : String) (now : Nat) (s : Store) : Store :=
  match lookupA eventId s.receipts with
  | some data =>
      let upd := { data with status := "completed", completedAt := some now }
      { s with receipts := insertA eventId upd s.receipts }
  | none =>
      let created : Receipt := ⟨none, none, none, none, "completed", none, some now, none⟩
      { s with receipts := insertA eventId created s.receipts }

/-- Result of `claimIdempotencyKey`. -/
inductive ClaimOutcome where
  | fresh : ClaimOutcome
  | existing : String → ClaimOutcome
  deriving Repr, DecidableEq

/-- `claimIdempotencyKey`: transactional claim; never overwrites. -/
def claimIdempotencyKey (key : String) (messageId : String) (now : Nat)
    (s : Store) : ClaimOutcome × Store :=
  match lookupA key s.idempotencyKeys with
  | some data => (.existing data.messageId, s)
  | none =>
      let doc : IdemKeyRecord := ⟨messageId, now⟩
      (.fresh, { s with idempotencyKeys := insertA key doc s.idempotencyKeys })

/-- `logEvent`. -/
def logEvent (conversationId eventId eventType : String)
    (payload : List (String × Json)) (now : Nat) (s : Store) : Store :=
  let entry : EventLogRecord := ⟨eventId, eventType, now, payload⟩
  { s with events := insertA (conversationId, eventId) entry s.events }

/-- `saveIntent`. -/
def saveIntent (intent : ReasoningIntent) (s : Store) : Store :=
  { s with intents := insertA (intent.conversationId, intent.intentId) intent s.intents }

/-- `saveActionResult`. -/
def saveActionResult (result : ActionResult) (s : Store) : Store :=
  { s with actions := insertA (result.conversationId, result.actionId) result s.actions }

/-- `findActionResultByIntentId`: non-emptiness of the
`conversations/{id}/actions where intentId ==` query. -/
def findActionResultByIntentId (conversationId intentId : String)
    (s : Store) : Bool :=
  s.actions.any fun p => p.1.1 == conversationId && p.2.intentId == intentId

-- ── Bus events (`src/shared/types.ts`, `src/shared/pubsub.ts`) ──

/-- `AgentEvent` from `types.ts` (the decoded envelope). -/
structure AgentEvent where
  eventId : String
  eventType : String
  conversationId : String
  messageId : String
  timestamp : Nat
  producer : String
  payload : List (String × Json)

/-- A call to `publishEvent(topicName, event)` recorded by the model. -/
structure PublishedEvent where
  topic : String
  event : AgentEvent

/-- Default of `process.env.TOPIC_REASONING`. -/
def TOPIC_REASONING : String := "reasoning-requested"

/-- Default of `process.env.TOPIC_ACTION`. -/
def TOPIC_ACTION : String := "action-requested"

-- ── Ingress (`src/functions/api.ts`) ───────────────────────

/-- The JSON responses `POST /messages` can produce. -/
inductive ApiResponse where
  | badRequest (error : String)                                -- 400 status
  | duplicate (messageId : String) (message : String)          -- 200, duplicate true
  | created (messageId conversationId eventId state : String)  -- 201 status
  | serverError (error : String)                               -- 500 status
  deriving Repr, DecidableEq

/-- The fresh UUIDs minted during one `POST /messages` invocation. -/
structure MintedIds where
  newConversationId : String
  messageId : String
  eventId : String

/-- The happy-path tail of `POST /messages` after the idempotency gate:
create/reuse conversation, persist message, log + publish the
`reasoning_requested` event, transition `RECEIVED → REASONING_REQUESTED`.
A throw inside the surrounding `try` is reported as a 500 response with
the writes and publishes made so far already durable. -/
def postMessagesPipeline (content conversationId : String)
    (reusedConversation : Bool) (messageId : String)
    (idempotencyKey : Option String) (eventId : String) (now : Nat)
    (s : Store) : ApiResponse × Store × List PublishedEvent :=
  let s := if reusedConversation then s else createConversation conversationId now s
  let s := saveMessage ⟨messageId, conversationId, content, now, idempotencyKey⟩ s
  let payload := [("content", Json.str content)]
  let event : AgentEvent := ⟨eventId, "reasoning_requested", conversationId, messageId, now, "api", payload⟩
  let s := logEvent conversationId eventId "reasoning_requested" payload now s
  let pubs := [PublishedEvent.mk TOPIC_REASONING event]
  match transitionState conversationId .REASONING_REQUESTED now s with
  | .ok s2 => (.created messageId conversationId eventId "REASONING_REQUESTED", s2, pubs)
  | .error msg => (.serverError msg, s, pubs)

/-- The `POST /messages` handler of `api.ts`.  `content` and
`existingConvId` are the destructured body fields (`none` = absent),
`idempotencyKey` the `X-Idempotency-Key` header.  The body guard
`!content || typeof content !== 'string'` rejects exactly: an absent
field, any non-string value, and the empty string (the only falsy
string). -/
def postMessages (content : Option Json) (existingConvId : Option String)
    (idempotencyKey : Option String) (ids : MintedIds) (now : Nat)
    (s : Store) : ApiResponse × Store × List PublishedEvent :=
  match content with
  | some (Json.str c) =>
      if c = "" then (.badRequest "Missing or invalid \"content\" field", s, [])
      else
        let conversationId := existingConvId.getD ids.newConversationId
        let messageId := ids.messageId
        match idempotencyKey with
        | some key =>
            match claimIdempotencyKey key messageId now s with
            | (.existing existingMessageId, s1) =>
                (.duplicate existingMessageId "Request already processed", s1, [])
            | (.fresh, s1) =>
                postMessagesPipeline c conversationId existingConvId.isSome
                  messageId idempotencyKey ids.eventId now s1
        | none =>
            postMessagesPipeline c conversationId existingConvId.isSome
              messageId none ids.eventId now s
  | some _ => (.badRequest "Missing or invalid \"content\" field", s, [])
  | none => (.badRequest "Missing or invalid \"content\" field", s, [])

-- ── Reasoner (`src/functions/reasoner.ts`) ─────────────────

/-- Contiguous-sublist check on character lists. -/
def listInfixOf (needle : List Char) : List Char → Bool
  | [] => needle.isEmpty
  | c :: rest => needle.isPrefixOf (c :: rest) || listInfixOf needle rest

/-- JS `String.prototype.includes`. -/
def jsIncludes (s needle : String) : Bool :=
  listInfixOf needle.data s.data

/-- JS `String.prototype.toLowerCase` (ASCII, which is all the source uses). -/
def jsToLower (s : String) : String :=
  ⟨s.data.map Char.toLower⟩

/-- `mockReasoning` from `reasoner.ts`.  The `uuidv4()` minted inside each
branch is passed in as `intentId` (the function mints exactly one per
invocation, in whichever branch is taken). -/
def mockReasoning (content conversationId messageId : String)
    (intentId : String) : Json :=
  let lower := jsToLower content
  let base := [("intentId", Json.str intentId), ("conversationId", Json.str conversationId), ("messageId", Json.str messageId)]
  if jsIncludes lower "search" || jsIncludes lower "find" then
    Json.obj (base ++ [("action", Json.str "search"), ("parameters", Json.obj [("query", Json.str content)]), ("confidence", Json.num (mkRat 92 100))])
  else if jsIncludes lower "calculate" || jsIncludes lower "compute" || jsIncludes lower "math" then
    Json.obj (base ++ [("action", Json.str "calculate"), ("parameters", Json.obj [("expression", Json.str content)]), ("confidence", Json.num (mkRat 88 100))])
  else if jsIncludes lower "summarize" || jsIncludes lower "summary" then
    Json.obj (base ++ [("action", Json.str "summarize"), ("parameters", Json.obj [("text", Json.str content)]), ("confidence", Json.num (mkRat 85 100))])
  else if jsIncludes lower "translate" then
    Json.obj (base ++ [("action", Json.str "translate"), ("parameters", Json.obj [("text", Json.str content), ("targetLang", Json.str "en")]), ("confidence", Json.num (mkRat 90 100))])
  else
    -- Default: still produces a valid intent (search fallback)
    Json.obj (base ++ [("action", Json.str "search"), ("parameters", Json.obj [("query", Json.str content)]), ("confidence", Json.num (mkRat 60 100))])

/-- `(raw.k as string) || dflt` for the string-or-absent fields produced
by `mockReasoning` (non-string truthy values do not occur there). -/
def jsStrFieldOr (j : Json) (k : String) (dflt : String) : String :=
  match j.get k with
  | some (.str s) => if s = "" then dflt else s
  | _ => dflt

/-- `(raw.k as Record<string, unknown>) || dflt` (objects are truthy). -/
def jsObjFieldOr (j : Json) (k : String) (dflt : List (String × Json)) :
    List (String × Json) :=
  match j.get k with
  | some (.obj fs) => fs
  | _ => dflt

/-- `(raw.k as number) || dflt` (`0` is falsy). -/
def jsNumFieldOr (j : Json) (k : String) (dflt : Rat) : Rat :=
  match j.get k with
  | some (.num q) => if q = 0 then dflt else q
  | _ => dflt

/-- The `intentDoc` object literal built by the reasoner handler
(`reasoner.ts` lines 137–147). -/
def mkIntentDoc (rawIntent : Json) (conversationId messageId : String)
    (fallbackIntentId : String) (now : Nat)
    (validation : ValidationResult) : ReasoningIntent where
  intentId := jsStrFieldOr rawIntent "intentId" fallbackIntentId
  conversationId := conversationId
  messageId := messageId
  action := jsStrFieldOr rawIntent "action" "unknown"
  parameters := jsObjFieldOr rawIntent "parameters" []
  confidence := jsNumFieldOr rawIntent "confidence" 0
  createdAt := now
  valid := validation.valid
  validationError := validation.error

/-- Outcome of one Pub/Sub handler invocation: returning normally = ack,
throwing = nack (`failed` carries the thrown message). -/
inductive HandlerOutcome where
  | acked : HandlerOutcome
  | failed (error : String) : HandlerOutcome
  deriving Repr, DecidableEq

/-- The `reasoner` cloudEvent handler, from the already-decoded
`AgentEvent` on (a decode failure acks before any of this runs).
`mintedIntentId` is the `uuidv4()` of `mockReasoning`,
`fallbackIntentId` the `uuidv4()` fallback of the `intentDoc` literal,
`actionEventId` the `uuidv4()` of the published action event.  Returns the
outcome together with the store writes and publishes that became durable
before any throw. -/
def reasonerHandler (ev : AgentEvent)
    (mintedIntentId fallbackIntentId actionEventId : String) (now : Nat)
    (s : Store) : HandlerOutcome × Store × List PublishedEvent :=
  let claimed := claimReceipt ev.eventId ⟨"reasoner", ev.conversationId, ev.messageId⟩ now s
  let s := claimed.2
  if !claimed.1 then (.acked, s, [])   -- duplicate event, skip
  else
    -- `const content = (payload.content as string) || ''`
    let content := ((Json.field ev.payload "content").bind Json.asStr).getD ""
    let rawIntent := mockReasoning content ev.conversationId ev.messageId mintedIntentId
    let validation := validateIntent rawIntent
    let intentDoc := mkIntentDoc rawIntent ev.conversationId ev.messageId fallbackIntentId now validation
    let s := saveIntent intentDoc s
    let logPayload := [("intentId", Json.str intentDoc.intentId), ("valid", Json.bool validation.valid)]
    let s := logEvent ev.conversationId ev.eventId "reasoning_completed" logPayload now s
    if !validation.valid then
      match transitionState ev.conversationId .FAILED_VALIDATION now s with
      | .error e => (.failed e, s, [])
      | .ok s => (.acked, completeReceipt ev.eventId now s, [])
    else
      -- Transition to INTENT_VALIDATED first
      match transitionState ev.conversationId .INTENT_VALIDATED now s with
      | .error e => (.failed e, s, [])
      | .ok s =>
          let actionPayload := [("intentId", Json.str intentDoc.intentId), ("action", Json.str intentDoc.action), ("parameters", Json.obj intentDoc.parameters), ("confidence", Json.num intentDoc.confidence)]
          let actionEvent : AgentEvent := ⟨actionEventId, "action_requested", ev.conversationId, ev.messageId, now, "reasoner", actionPayload⟩
          let pubs := [PublishedEvent.mk TOPIC_ACTION actionEvent]
          match transitionState ev.conversationId .ACTION_REQUESTED now s with
          | .error e => (.failed e, s, pubs)
          | .ok s => (.acked, completeReceipt ev.eventId now s, pubs)

-- ── Executor (`src/functions/executor.ts`) ─────────────────

/-- Return shape of `executeTool`. -/
structure ToolOutcome where
  success : Bool
  result : List (String × Json)
  error : Option String

/-- The two mocked search hits. -/
def searchHits : Json :=
  Json.arr [Json.obj [("title", Json.str "Result 1"), ("snippet", Json.str "Relevant information found for the query.")], Json.obj [("title", Json.str "Result 2"), ("snippet", Json.str "Additional context from another source.")]]

/-- `executeTool` from `executor.ts`: deterministic mocked tool calls.
A missing parameter field (JS `undefined`) is modelled as `Json.null`. -/
def executeTool (action : String) (parameters : List (String × Json)) :
    ToolOutcome :=
  match action with
  | "search" =>
      let res := [("tool", Json.str "search"), ("query", (Json.field parameters "query").getD Json.null), ("results", searchHits), ("totalResults", Json.num 2)]
      { success := true, result := res, error := none }
  | "calculate" =>
      let res := [("tool", Json.str "calculate"), ("expression", (Json.field parameters "expression").getD Json.null), ("answer", Json.num 42), ("note", Json.str "Mocked calculation – always returns 42 for determinism.")]
      { success := true, result := res, error := none }
  | "summarize" =>
      -- `String(parameters.text || '').length`
      let textStr := ((Json.field parameters "text").bind Json.asStr).getD ""
      let res := [("tool", Json.str "summarize"), ("inputLength", Json.num (mkRat textStr.length 1)), ("summary", Json.str "This is a mocked summary of the provided text.")]
      { success := true, result := res, error := none }
  | "translate" =>
      -- `parameters.targetLang || 'en'`
      let tl := match Json.field parameters "targetLang" with
        | some v => if v.jsTruthy then v else Json.str "en"
        | none => Json.str "en"
      let res := [("tool", Json.str "translate"), ("targetLang", tl), ("translation", Json.str "This is a mocked translation output.")]
      { success := true, result := res, error := none }
  | _ =>
      { success := false, result := [], error := some ("Unknown action: " ++ action) }

/-- The `executor` cloudEvent handler, from the already-decoded
`AgentEvent`.  `mintedActionId` is the `uuidv4()` for the stored
`ActionResult`.  The executor publishes nothing. -/
def executorHandler (ev : AgentEvent) (mintedActionId : String) (now : Nat)
    (s : Store) : HandlerOutcome × Store :=
  let claimed := claimReceipt ev.eventId ⟨"executor", ev.conversationId, ev.messageId⟩ now s
  let s := claimed.2
  if !claimed.1 then (.acked, s)       -- duplicate event, skip
  else
    -- `payload.action as string` / `payload.intentId as string`; an absent
    -- field (JS undefined) stringifies to "undefined" downstream
    let action := ((Json.field ev.payload "action").bind Json.asStr).getD "undefined"
    let parameters := jsObjFieldOr (Json.obj ev.payload) "parameters" []
    let intentId := ((Json.field ev.payload "intentId").bind Json.asStr).getD "undefined"
    -- Defense-in-depth: check if a result already exists for this intent
    if findActionResultByIntentId ev.conversationId intentId s then
      (.acked, completeReceipt ev.eventId now s)
    else
      let t := executeTool action parameters
      let actionResult : ActionResult := ⟨mintedActionId, ev.conversationId, intentId, ev.messageId, t.result, now, t.success, t.error⟩
      let s := saveActionResult actionResult s
      let logPayload := [("actionId", Json.str mintedActionId), ("success", Json.bool t.success)]
      let s := logEvent ev.conversationId ev.eventId "action_executed" logPayload now s
      if t.success then
        match transitionState ev.conversationId .ACTION_COMPLETED now s with
        | .error e => (.failed e, s)
        | .ok s2 => (.acked, completeReceipt ev.eventId now s2)
      else
        match transitionState ev.conversationId .FAILED_EXECUTION now s with
        | .error e => (.failed e, s)
        | .ok s2 => (.acked, completeReceipt ev.eventId now s2)

-- ── Spec-side transition table (refinement target for claim C3) ──

/-- The authoritative transition table as written in the spec (§4.2). -/
def allowedPairsSpec : List (ConversationState × ConversationState) :=
  [(.RECEIVED, .REASONING_REQUESTED),
   (.REASONING_REQUESTED, .INTENT_VALIDATED),
   (.REASONING_REQUESTED, .FAILED_VALIDATION),
   (.INTENT_VALIDATED, .ACTION_REQUESTED),
   (.ACTION_REQUESTED, .ACTION_COMPLETED),
   (.ACTION_REQUESTED, .FAILED_EXECUTION)]

/-- The spec's three terminal states. -/
def terminalStatesSpec : List ConversationState :=
  [.ACTION_COMPLETED, .FAILED_VALIDATION, .FAILED_EXECUTION]

-- ── Concrete fixtures used by witnesses and counterexamples ──

/-- A well-formed UUID string (shape-wise), standing in for a `uuidv4()`. -/
def uuidA : String := "11111111-1111-1111-1111-111111111111"

/-- A second distinct UUID string. -/
def uuidB : String := "22222222-2222-2222-2222-222222222222"

/-- The empty database. -/
def emptyStore : Store := ⟨[], [], [], [], [], [], []⟩

/-- A structurally valid intent candidate document. -/
def validIntentJson : Json :=
  Json.obj [("intentId", Json.str uuidA), ("conversationId", Json.str "c1"), ("messageId", Json.str "m1"), ("action", Json.str "search"), ("parameters", Json.obj []), ("confidence", Json.num (mkRat 92 100))]

/-- A receipt already completed (for the duplicate branch of `claimReceipt`). -/
def receiptCompleted : Receipt :=
  ⟨some "e1", some "reasoner", some "c1", some "m1", "completed", some 0, some 5, none⟩

/-- A receipt claimed recently (another worker is active). -/
def receiptActive : Receipt :=
  ⟨some "e1", some "reasoner", some "c1", some "m1", "processing", some 1000, none, none⟩

/-- A receipt claimed long ago (stale, reclaimable). -/
def receiptStale : Receipt :=
  ⟨some "e1", some "reasoner", some "c1", some "m1", "processing", some 0, none, none⟩

/-- Store with a completed receipt for `e1`. -/
def storeCompleted : Store := ⟨[], [], [], [], [], [("e1", receiptCompleted)], []⟩

/-- Store with a fresh processing receipt for `e1`. -/
def storeActive : Store := ⟨[], [], [], [], [], [("e1", receiptActive)], []⟩

/-- Store with a stale processing receipt for `e1`. -/
def storeStale : Store := ⟨[], [], [], [], [], [("e1", receiptStale)], []⟩

/-- Metadata of a reasoner claim. -/
def metaReasoner : ReceiptMeta := ⟨"reasoner", "c1", "m1"⟩

/-- Conversation resumed after a crash between the `INTENT_VALIDATED`
transition and the publish (the scenario of claim C2). -/
def convResumed : Conversation := ⟨"c1", .INTENT_VALIDATED, 0, 0⟩

/-- Store for the C2 scenario: conversation already at `INTENT_VALIDATED`,
stale processing receipt for the redelivered event `e1`. -/
def storeResumed : Store :=
  ⟨[("c1", convResumed)], [], [], [], [], [("e1", receiptStale)], []⟩

/-- The redelivered `reasoning_requested` envelope of the C2 scenario. -/
def eventResumed : AgentEvent :=
  ⟨"e1", "reasoning_requested", "c1", "m1", 0, "api", [("content", Json.str "search cats")]⟩

/-- Store with one conversation in `RECEIVED` (C3 witness). -/
def storeReceived : Store :=
  ⟨[("c1", ⟨"c1", .RECEIVED, 0, 0⟩)], [], [], [], [], [], []⟩

/-- Store in which idempotency key `k1` is already claimed by message `m0`
(C4 witness). -/
def storeClaimedKey : Store :=
  ⟨[], [], [], [], [], [], [("k1", ⟨"m0", 0⟩)]⟩

/-- Minted UUIDs for one API invocation. -/
def idsA : MintedIds := ⟨"conv-new", "msg-new", "evt-new"⟩

/-- Store with a conversation at `ACTION_REQUESTED` (C8 witness). -/
def storeActionRequested : Store :=
  ⟨[("c8", ⟨"c8", .ACTION_REQUESTED, 0, 0⟩)], [], [], [], [], [], []⟩

/-- A stale processing receipt for the executor event `e8` (the
crashed-executor redelivery scenario). -/
def receiptStaleExec : Receipt :=
  ⟨some "e8", some "executor", some "c8", some "m8", "processing", some 0, none, none⟩

/-- Store with a conversation at `ACTION_REQUESTED` and a stale processing
receipt for `e8`, so the receipt claim passes by reclamation. -/
def storeActionRequestedStale : Store :=
  ⟨[("c8", ⟨"c8", .ACTION_REQUESTED, 0, 0⟩)], [], [], [], [], [("e8", receiptStaleExec)], []⟩

/-- An `action_requested` envelope whose action is unknown to
`executeTool` (tool failure branch). -/
def eventDance : AgentEvent :=
  ⟨"e8", "action_requested", "c8", "m8", 0, "reasoner", [("intentId", Json.str uuidA), ("action", Json.str "dance"), ("parameters", Json.obj []), ("confidence", Json.num (mkRat 60 100))]⟩

/-- An `action_requested` envelope with a known action (tool success). -/
def eventSearch : AgentEvent :=
  ⟨"e9", "action_requested", "c8", "m8", 0, "reasoner", [("intentId", Json.str uuidB), ("action", Json.str "search"), ("parameters", Json.obj [("query", Json.str "cats")]), ("confidence", Json.num (mkRat 92 100))]⟩

-- ═══════════════════════ Theorems ═══════════════════════

-- ── Association-list lemmas ──

theorem lookupA_insertA_self {κ α : Type} [DecidableEq κ] (k : κ) (v : α)
    (l : List (κ × α)) : lookupA k (insertA k v l) = some v := by
  induction l with
  | nil => simp [insertA, lookupA]
  | cons hd tl ih =>
      obtain ⟨k', v'⟩ := hd
      by_cases h : k' = k
      · simp [insertA, h, lookupA]
      · simp [insertA, h, lookupA, ih]

theorem insertA_idem {κ α : Type} [DecidableEq κ] (k : κ) (v : α)
    (l : List (κ × α)) : insertA k v (insertA k v l) = insertA k v l := by
  induction l with
  | nil => simp [insertA]
  | cons hd tl ih =>
      obtain ⟨k', v'⟩ := hd
      by_cases h : k' = k
      · simp [insertA, h]
      · simp [insertA, h, ih]

-- ── String lemmas ──

theorem string_length_eq_zero_iff (s : String) : s.length = 0 ↔ s = "" := by
  constructor
  · intro h
    cases s with
    | mk data =>
        cases data with
        | nil => rfl
        | cons c cs => simp [String.length] at h
  · intro h
    subst h
    rfl

theorem jsJoin_cons_length (sep x : String) (xs : List String) :
    x.length ≤ (jsJoin sep (x :: xs)).length := by
  cases xs with
  | nil => simp [jsJoin]
  | cons y ys =>
      simp only [jsJoin, String.length_append]
      omega

-- ── Per-field Zod check lemmas ──

theorem checkIntentId_eq_nil (fs : List (String × Json)) :
    checkIntentId fs = [] ↔ specIntentId fs = true := by
  unfold checkIntentId specIntentId
  cases h : Json.field fs "intentId" with
  | none => simp
  | some v => cases v <;> simp

theorem checkNonEmptyString_eq_nil (fs : List (String × Json)) (k : String) :
    checkNonEmptyString fs k = [] ↔ specNonEmptyString fs k = true := by
  unfold checkNonEmptyString specNonEmptyString
  cases h : Json.field fs k with
  | none => simp
  | some v =>
      cases v <;> simp
      rw [string_length_eq_zero_iff]

theorem checkAction_eq_nil (fs : List (String × Json)) :
    checkAction fs = [] ↔ specAction fs = true := by
  unfold checkAction specAction
  cases h : Json.field fs "action" with
  | none => simp
  | some v => cases v <;> simp

theorem checkParameters_eq_nil (fs : List (String × Json)) :
    checkParameters fs = [] ↔ specParameters fs = true := by
  unfold checkParameters specParameters
  cases h : Json.field fs "parameters" with
  | none => simp
  | some v => cases v <;> simp

theorem checkConfidence_eq_nil (fs : List (String × Json)) :
    checkConfidence fs = [] ↔ specConfidence fs = true := by
  unfold checkConfidence specConfidence
  cases h : Json.field fs "confidence" with
  | none => simp
  | some v => cases v <;> simp

theorem checkIntent_eq_nil (j : Json) :
    checkIntent j = [] ↔ intentShapeSpec j = true := by
  cases j <;> simp [checkIntent, intentShapeSpec]
  rename_i fs
  rw [checkIntentId_eq_nil, checkNonEmptyString_eq_nil, checkNonEmptyString_eq_nil,
      checkAction_eq_nil, checkParameters_eq_nil, checkConfidence_eq_nil]
  tauto

-- ── Schema validator: supporting lemmas for C5 ──

theorem specIntentId_elim (fs : List (String × Json))
    (h : specIntentId fs = true) :
    ∃ s, Json.field fs "intentId" = some (Json.str s) ∧ isUuid s = true := by
  unfold specIntentId at h
  rcases hf : Json.field fs "intentId" with _ | v
  all_goals rw [hf] at h
  · simp at h
  · cases v <;> simp at h
    exact ⟨_, rfl, h⟩

theorem specNonEmptyString_elim (fs : List (String × Json)) (k : String)
    (h : specNonEmptyString fs k = true) :
    ∃ s, Json.field fs k = some (Json.str s) ∧ s ≠ "" := by
  unfold specNonEmptyString at h
  rcases hf : Json.field fs k with _ | v
  all_goals rw [hf] at h
  · simp at h
  · cases v <;> simp at h
    exact ⟨_, rfl, h⟩

theorem specAction_elim (fs : List (String × Json))
    (h : specAction fs = true) :
    ∃ s, Json.field fs "action" = some (Json.str s) ∧
      actionValues.contains s = true := by
  unfold specAction at h
  rcases hf : Json.field fs "action" with _ | v
  all_goals rw [hf] at h
  · simp at h
  · cases v <;> simp at h
    exact ⟨_, rfl, by simpa using h⟩

theorem specParameters_elim (fs : List (String × Json))
    (h : specParameters fs = true) :
    ∃ p, Json.field fs "parameters" = some (Json.obj p) := by
  unfold specParameters at h
  rcases hf : Json.field fs "parameters" with _ | v
  all_goals rw [hf] at h
  · simp at h
  · cases v <;> simp at h
    exact ⟨_, rfl⟩

theorem specConfidence_elim (fs : List (String × Json))
    (h : specConfidence fs = true) :
    ∃ q, Json.field fs "confidence" = some (Json.num q) ∧ 0 ≤ q ∧ q ≤ 1 := by
  unfold specConfidence at h
  rcases hf : Json.field fs "confidence" with _ | v
  all_goals rw [hf] at h
  · simp at h
  · cases v <;> simp at h
    exact ⟨_, rfl, h.1, h.2⟩

theorem extractIntent_of_shape (j : Json) (h : intentShapeSpec j = true) :
    ∃ d, extractIntent j = some d := by
  cases j with
  | obj fs =>
      have hh : (specIntentId fs && specNonEmptyString fs "conversationId" && specNonEmptyString fs "messageId" && specAction fs && specParameters fs && specConfidence fs) = true := h
      simp only [Bool.and_eq_true] at hh
      obtain ⟨⟨⟨⟨⟨h1, h2⟩, h3⟩, h4⟩, h5⟩, h6⟩ := hh
      obtain ⟨i, hf1, hi⟩ := specIntentId_elim fs h1
      obtain ⟨c, hf2, hc⟩ := specNonEmptyString_elim fs "conversationId" h2
      obtain ⟨m, hf3, hm⟩ := specNonEmptyString_elim fs "messageId" h3
      obtain ⟨a, hf4, ha⟩ := specAction_elim fs h4
      obtain ⟨p, hf5⟩ := specParameters_elim fs h5
      obtain ⟨q, hf6, hq0, hq1⟩ := specConfidence_elim fs h6
      have hc' : c.length ≠ 0 := by
        rw [Ne, string_length_eq_zero_iff]
        exact hc
      have hm' : m.length ≠ 0 := by
        rw [Ne, string_length_eq_zero_iff]
        exact hm
      have ha' : a ∈ actionValues := by simpa using ha
      refine ⟨⟨i, c, m, a, p, q⟩, ?_⟩
      simp [extractIntent, hf1, hf2, hf3, hf4, hf5, hf6, hi, hc', hm', ha', hq0, hq1]
  | null => simp [intentShapeSpec] at h
  | bool b => simp [intentShapeSpec] at h
  | num q => simp [intentShapeSpec] at h
  | str s => simp [intentShapeSpec] at h
  | arr l => simp [intentShapeSpec] at h

theorem validateIntent_error_ne_empty (j : Json) (h : checkIntent j ≠ []) :
    ∃ e, (validateIntent j).error = some e ∧ e ≠ "" := by
  cases hc : checkIntent j with
  | nil => exact absurd hc h
  | cons issue rest =>
      refine ⟨jsJoin "; " ((issue :: rest).map fun i => i.1 ++ ": " ++ i.2), ?_, ?_⟩
      · unfold validateIntent
        simp [hc]
      · intro he
        have h1 := jsJoin_cons_length "; "
          (issue.1 ++ ": " ++ issue.2) (rest.map fun i => i.1 ++ ": " ++ i.2)
        rw [List.map_cons] at he
        rw [he] at h1
        simp [String.length_append] at h1
        have : (": " : String).length = 2 := by decide
        omega

/-- C5: `validateIntent` is a total function: for every input it returns
`valid = true` with parsed `data` and no error exactly when the input is
an object with `intentId` a UUID string, `conversationId` and `messageId`
non-empty strings, `action` one of the four schema actions, `parameters`
a map, and `confidence` a number in `[0,1]` (the spec-side
`intentShapeSpec`); on every other input it returns `valid = false`
together with a non-empty error string. -/
theorem validateIntent_spec (j : Json) :
    ((validateIntent j).valid = intentShapeSpec j)
    ∧ (intentShapeSpec j = true →
        ∃ d, validateIntent j = ⟨true, some d, none⟩)
    ∧ (intentShapeSpec j = false →
        ∃ e, (validateIntent j).valid = false ∧
          (validateIntent j).error = some e ∧ e ≠ "") := by
  refine ⟨?_, ?_, ?_⟩
  · by_cases hc : checkIntent j = []
    · have hs := (checkIntent_eq_nil j).mp hc
      unfold validateIntent
      simp [hc, hs]
    · have hs : intentShapeSpec j ≠ true := fun hsp =>
        hc ((checkIntent_eq_nil j).mpr hsp)
      unfold validateIntent
      simp [hc, Bool.eq_false_iff.mpr hs]
  · intro h
    have hc : checkIntent j = [] := (checkIntent_eq_nil j).mpr h
    obtain ⟨d, hd⟩ := extractIntent_of_shape j h
    refine ⟨d, ?_⟩
    unfold validateIntent
    simp [hc, hd]
  · intro h
    have hc : checkIntent j ≠ [] := fun he => by
      have := (checkIntent_eq_nil j).mp he
      rw [this] at h
      exact Bool.true_eq_false.mp h
    obtain ⟨e, he1, he2⟩ := validateIntent_error_ne_empty j hc
    have hv : (validateIntent j).valid = false := by
      unfold validateIntent
      simp [hc]
    exact ⟨e, hv, he1, he2⟩

/-- C5 witness: a concrete well-shaped intent parses with `valid = true`
and no error; the concrete ill-shaped input `null` yields `valid = false`
with a non-empty error string. -/
theorem validateIntent_spec_witness :
    (∃ d, validateIntent validIntentJson = ⟨true, some d, none⟩)
    ∧ (∃ e, (validateIntent Json.null).valid = false ∧
        (validateIntent Json.null).error = some e ∧ e ≠ "") :=
  ⟨(validateIntent_spec validIntentJson).2.1 (by decide),
   (validateIntent_spec Json.null).2.2 (by decide)⟩

-- ── State machine / transitionState (claim C3) ──

theorem validateTransition_iff_mem_spec (c n : ConversationState) :
    validateTransition c n = true ↔ (c, n) ∈ allowedPairsSpec := by
  revert c n
  decide

/-- C3: with the conversation present, `transitionState` succeeds — writing
`next` and refreshing `updatedAt` — exactly when `(current, next)` is in
the spec's transition table; on every other pair it fails with the
`InvalidTransition` error and (the transaction aborting) returns the store
unchanged; and the three terminal states admit no successor. -/
theorem transitionState_spec (s : Store) (conversationId : String) (now : Nat)
    (next : ConversationState) (conv : Conversation)
    (h : lookupA conversationId s.conversations = some conv) :
    ((∃ s2, transitionState conversationId next now s = .ok s2) ↔
       (conv.state, next) ∈ allowedPairsSpec)
    ∧ ((conv.state, next) ∈ allowedPairsSpec →
        transitionState conversationId next now s =
          .ok { s with conversations := insertA conversationId { conv with state := next, updatedAt := now } s.conversations })
    ∧ ((conv.state, next) ∉ allowedPairsSpec →
        transitionState conversationId next now s =
          .error (invalidTransitionMsg conv.state next))
    ∧ (∀ t ∈ terminalStatesSpec, ∀ n, validateTransition t n = false) := by
  have hb := validateTransition_iff_mem_spec conv.state next
  have hok : (conv.state, next) ∈ allowedPairsSpec →
      transitionState conversationId next now s =
        .ok { s with conversations := insertA conversationId { conv with state := next, updatedAt := now } s.conversations } := by
    intro hm
    have hv : validateTransition conv.state next = true := hb.mpr hm
    simp [transitionState, h, assertTransition, hv]
  have herr : (conv.state, next) ∉ allowedPairsSpec →
      transitionState conversationId next now s =
        .error (invalidTransitionMsg conv.state next) := by
    intro hm
    have hv : ¬ validateTransition conv.state next = true := fun ht => hm (hb.mp ht)
    simp [transitionState, h, assertTransition, hv]
  refine ⟨⟨?_, fun hm => ⟨_, hok hm⟩⟩, hok, herr, by decide⟩
  intro ⟨s2, hs2⟩
  by_contra hm
  rw [herr hm] at hs2
  simp at hs2

/-- C3 witness: from `RECEIVED`, the allowed transition to
`REASONING_REQUESTED` succeeds and writes the new state with the new
`updatedAt`; the disallowed jump to `ACTION_COMPLETED` fails with the
`InvalidTransition` message. -/
theorem transitionState_spec_witness :
    transitionState "c1" .REASONING_REQUESTED 7 storeReceived =
      .ok ⟨[("c1", ⟨"c1", .REASONING_REQUESTED, 0, 7⟩)], [], [], [], [], [], []⟩
    ∧ transitionState "c1" .ACTION_COMPLETED 7 storeReceived =
      .error (invalidTransitionMsg .RECEIVED .ACTION_COMPLETED) := by
  constructor
  · rw [(transitionState_spec storeReceived "c1" 7 .REASONING_REQUESTED
      ⟨"c1", .RECEIVED, 0, 0⟩ rfl).2.1 (by decide)]
    rfl
  · exact (transitionState_spec storeReceived "c1" 7 .ACTION_COMPLETED
      ⟨"c1", .RECEIVED, 0, 0⟩ rfl).2.2.1 (by decide)

-- ── claimReceipt (claim C1) ──

/-- C1: `claimReceipt` (1) creates a fresh `processing` receipt and
returns `true` when none exists; (2) returns `false` on a `completed`
receipt; (3) returns `false` on a `processing` receipt younger than
`RECEIPT_STALE_THRESHOLD_MS`; (4) on a stale `processing` receipt,
refreshes `claimedAt` and `retriedAt` to `now`, keeps `status =
processing`, and returns `true`. -/
theorem claimReceipt_spec (eventId : String) (meta : ReceiptMeta) (now : Nat)
    (s : Store) :
    (lookupA eventId s.receipts = none →
      claimReceipt eventId meta now s =
        (true, { s with receipts := insertA eventId (freshReceipt eventId meta now) s.receipts }))
    ∧ (∀ r, lookupA eventId s.receipts = some r → r.status = "completed" →
        claimReceipt eventId meta now s = (false, s))
    ∧ (∀ r t, lookupA eventId s.receipts = some r → r.status = "processing" →
        r.claimedAt = some t → now - t < RECEIPT_STALE_THRESHOLD_MS →
        claimReceipt eventId meta now s = (false, s))
    ∧ (∀ r t, lookupA eventId s.receipts = some r → r.status = "processing" →
        r.claimedAt = some t → RECEIPT_STALE_THRESHOLD_MS ≤ now - t →
        claimReceipt eventId meta now s =
          (true, { s with receipts := insertA eventId { r with status := "processing", claimedAt := some now, retriedAt := some now } s.receipts })) := by
  refine ⟨?_, ?_, ?_, ?_⟩
  · intro h
    simp [claimReceipt, h]
  · intro r h hst
    simp [claimReceipt, h, hst]
  · intro r t h hst hca hlt
    simp [claimReceipt, h, hst, hca, hlt]
  · intro r t h hst hca hge
    have hnl : ¬ (now - t < RECEIPT_STALE_THRESHOLD_MS) := Nat.not_lt.mpr hge
    simp [claimReceipt, h, hst, hca, hnl]

/-- C1 witness: the four branches at concrete inputs — fresh claim,
completed duplicate, recent processing claim, stale reclamation. -/
theorem claimReceipt_spec_witness :
    claimReceipt "e1" metaReasoner 1000 emptyStore =
      (true, ⟨[], [], [], [], [], [("e1", freshReceipt "e1" metaReasoner 1000)], []⟩)
    ∧ claimReceipt "e1" metaReasoner 1000 storeCompleted = (false, storeCompleted)
    ∧ claimReceipt "e1" metaReasoner 1500 storeActive = (false, storeActive)
    ∧ claimReceipt "e1" metaReasoner 300000 storeStale =
      (true, ⟨[], [], [], [], [], [("e1", ⟨some "e1", some "reasoner", some "c1", some "m1", "processing", some 300000, none, some 300000⟩)], []⟩) := by
  refine ⟨?_, ?_, ?_, ?_⟩
  · rw [(claimReceipt_spec "e1" metaReasoner 1000 emptyStore).1 rfl]
    rfl
  · exact (claimReceipt_spec "e1" metaReasoner 1000 storeCompleted).2.1
      receiptCompleted rfl rfl
  · exact (claimReceipt_spec "e1" metaReasoner 1500 storeActive).2.2.1
      receiptActive 1000 rfl rfl rfl (by decide)
  · rw [(claimReceipt_spec "e1" metaReasoner 300000 storeStale).2.2.2
      receiptStale 0 rfl rfl rfl (by decide)]
    rfl

-- ── completeReceipt (claim C6) ──

/-- C6: `completeReceipt` is a merge-write upsert: with no receipt present
it still succeeds and creates the document with `status = completed` and
`completedAt = now`; after one call the stored status is `completed`; and
calling it twice yields the same store as calling it once. -/
theorem completeReceipt_spec (eventId : String) (now : Nat) (s : Store) :
    (lookupA eventId s.receipts = none →
      completeReceipt eventId now s =
        { s with receipts := insertA eventId ⟨none, none, none, none, "completed", none, some now, none⟩ s.receipts })
    ∧ ((lookupA eventId (completeReceipt eventId now s).receipts).map Receipt.status = some "completed")
    ∧ (completeReceipt eventId now (completeReceipt eventId now s) = completeReceipt eventId now s) := by
  refine ⟨?_, ?_, ?_⟩
  · intro h
    simp [completeReceipt, h]
  · unfold completeReceipt
    cases h : lookupA eventId s.receipts with
    | none => simp [lookupA_insertA_self]
    | some r => simp [lookupA_insertA_self]
  · unfold completeReceipt
    cases h : lookupA eventId s.receipts with
    | none => simp [lookupA_insertA_self, insertA_idem]
    | some r => simp [lookupA_insertA_self, insertA_idem]

/-- C6 witness: completing an absent receipt creates the completed
document, and completing twice equals completing once. -/
theorem completeReceipt_spec_witness :
    completeReceipt "e1" 5 emptyStore =
      ⟨[], [], [], [], [], [("e1", ⟨none, none, none, none, "completed", none, some 5, none⟩)], []⟩ := by
  rw [(completeReceipt_spec "e1" 5 emptyStore).1 rfl]
  rfl

-- ── POST /messages: bad request (claim C7) ──

/-- C7: whenever the body's `content` field is absent, not a string, or
the empty string, `POST /messages` responds 400 with the exact error
string, leaves the store untouched, and publishes nothing — regardless of
conversation reuse or idempotency key. -/
theorem postMessages_badRequest (content : Option Json)
    (h : content = none ∨ (∃ v, content = some v ∧ Json.asStr v = none) ∨
      content = some (Json.str ""))
    (existingConvId : Option String) (idempotencyKey : Option String)
    (ids : MintedIds) (now : Nat) (s : Store) :
    postMessages content existingConvId idempotencyKey ids now s =
      (.badRequest "Missing or invalid \"content\" field", s, []) := by
  rcases h with h | ⟨v, hv, hvs⟩ | h
  · subst h
    rfl
  · subst hv
    cases v
    case str => simp [Json.asStr] at hvs
    all_goals rfl
  · subst h
    simp [postMessages]

/-- C7 witness: the empty body (`POST /messages {}`) gets the 400 with no
writes and no publishes. -/
theorem postMessages_badRequest_witness :
    postMessages none none none idsA 0 emptyStore =
      (.badRequest "Missing or invalid \"content\" field", emptyStore, []) :=
  postMessages_badRequest none (Or.inl rfl) none none idsA 0 emptyStore

-- ── POST /messages: idempotent replay (claim C4) ──

/-- C4: a request that passes body validation and carries an
`X-Idempotency-Key` that is already claimed gets the 200 duplicate
response carrying the originally stored `messageId`; the store is
returned unchanged (the claim transaction only reads) and nothing is
published — no conversation, message, event-log entry, publish, or state
transition happens. -/
theorem postMessages_duplicate (c : String) (hc : c ≠ "")
    (existingConvId : Option String) (key : String) (ids : MintedIds)
    (now : Nat) (s : Store) (rec0 : IdemKeyRecord)
    (hk : lookupA key s.idempotencyKeys = some rec0) :
    postMessages (some (Json.str c)) existingConvId (some key) ids now s =
      (.duplicate rec0.messageId "Request already processed", s, []) := by
  simp [postMessages, hc, claimIdempotencyKey, hk]

/-- C4 witness: replaying key `k1` (stored message `m0`) returns the
duplicate response with `m0` and leaves the concrete store unchanged. -/
theorem postMessages_duplicate_witness :
    postMessages (some (Json.str "hello")) none (some "k1") idsA 3 storeClaimedKey =
      (.duplicate "m0" "Request already processed", storeClaimedKey, []) :=
  postMessages_duplicate "hello" (by decide) none "k1" idsA 3 storeClaimedKey
    ⟨"m0", 0⟩ rfl

-- ── Reasoner intent document (claim C9) ──

/-- C9: for every reasoning output, the `ReasoningIntent` document the
Reasoner builds (and saves) has `valid = true` exactly when its
`validationError` is absent. -/
theorem intentDoc_valid_iff_error_absent (raw : Json) (cid mid fb : String)
    (now : Nat) :
    ((mkIntentDoc raw cid mid fb now (validateIntent raw)).valid = true ↔
      (mkIntentDoc raw cid mid fb now (validateIntent raw)).validationError = none) := by
  have hv : (mkIntentDoc raw cid mid fb now (validateIntent raw)).valid =
      (validateIntent raw).valid := rfl
  have he : (mkIntentDoc raw cid mid fb now (validateIntent raw)).validationError =
      (validateIntent raw).error := rfl
  rw [hv, he]
  unfold validateIntent
  by_cases hc : checkIntent raw = [] <;> simp [hc]

-- ── mockReasoning always validates (claim C10) ──

theorem validateIntent_valid_iff (j : Json) :
    (validateIntent j).valid = true ↔ checkIntent j = [] := by
  unfold validateIntent
  by_cases hc : checkIntent j = [] <;> simp [hc]

theorem validateIntent_candidate (u cid mid act : String)
    (params : List (String × Json)) (q : Rat)
    (hu : isUuid u = true) (hcid : cid ≠ "") (hmid : mid ≠ "")
    (hact : act ∈ actionValues) (hq0 : 0 ≤ q) (hq1 : q ≤ 1) :
    (validateIntent (Json.obj ([("intentId", Json.str u), ("conversationId", Json.str cid), ("messageId", Json.str mid)] ++ [("action", Json.str act), ("parameters", Json.obj params), ("confidence", Json.num q)]))).valid = true := by
  rw [validateIntent_valid_iff, checkIntent_eq_nil]
  simp [intentShapeSpec, specIntentId, specNonEmptyString, specAction,
    specParameters, specConfidence, Json.field, hu, hcid, hmid, hact, hq0, hq1]

theorem mockReasoning_valid (content cid mid u : String)
    (hcid : cid ≠ "") (hmid : mid ≠ "") (hu : isUuid u = true) :
    (validateIntent (mockReasoning content cid mid u)).valid = true := by
  simp only [mockReasoning]
  split
  · exact validateIntent_candidate u cid mid "search" _ _ hu hcid hmid
      (by decide) (by decide) (by decide)
  · split
    · exact validateIntent_candidate u cid mid "calculate" _ _ hu hcid hmid
        (by decide) (by decide) (by decide)
    · split
      · exact validateIntent_candidate u cid mid "summarize" _ _ hu hcid hmid
          (by decide) (by decide) (by decide)
      · split
        · exact validateIntent_candidate u cid mid "translate" _ _ hu hcid hmid
            (by decide) (by decide) (by decide)
        · exact validateIntent_candidate u cid mid "search" _ _ hu hcid hmid
            (by decide) (by decide) (by decide)

/-- C10: for every content string, non-empty `conversationId` and
`messageId`, and minted UUID-shaped `intentId`, the candidate produced by
`mockReasoning` passes `validateIntent` (`valid = true`, no error), so the
Reasoner's `FAILED_VALIDATION` branch is not taken for such events. -/
theorem mockReasoning_always_valid (content cid mid u : String)
    (hcid : cid ≠ "") (hmid : mid ≠ "") (hu : isUuid u = true) :
    (validateIntent (mockReasoning content cid mid u)).valid = true ∧
    (validateIntent (mockReasoning content cid mid u)).error = none := by
  have hv := mockReasoning_valid content cid mid u hcid hmid hu
  refine ⟨hv, ?_⟩
  have hc : checkIntent (mockReasoning content cid mid u) = [] :=
    (validateIntent_valid_iff _).mp hv
  unfold validateIntent
  simp [hc]

/-- C10 witness: a content string hitting the default branch, with
concrete non-empty ids and a concrete UUID. -/
theorem mockReasoning_always_valid_witness :
    (validateIntent (mockReasoning "hello" "c1" "m1" uuidA)).valid = true ∧
    (validateIntent (mockReasoning "hello" "c1" "m1" uuidA)).error = none :=
  mockReasoning_always_valid "hello" "c1" "m1" uuidA (by decide) (by decide)
    (by decide)

-- ── Reasoner resumed after crash (claim C2) ──

theorem claimReceipt_conversations (e : String) (m : ReceiptMeta) (now : Nat)
    (s : Store) : (claimReceipt e m now s).2.conversations = s.conversations := by
  unfold claimReceipt
  repeat' split
  all_goals rfl

theorem transitionState_error_of_invalid (cid : String)
    (next : ConversationState) (now : Nat) (s : Store) (conv : Conversation)
    (h : lookupA cid s.conversations = some conv)
    (hv : validateTransition conv.state next = false) :
    transitionState cid next now s = .error (invalidTransitionMsg conv.state next) := by
  unfold transitionState
  rw [h]
  simp [assertTransition, hv]

theorem transitionState_ok_of_valid (cid : String) (next : ConversationState)
    (now : Nat) (s : Store) (conv : Conversation)
    (h : lookupA cid s.conversations = some conv)
    (hv : validateTransition conv.state next = true) :
    transitionState cid next now s =
      .ok { s with conversations := insertA cid { conv with state := next, updatedAt := now } s.conversations } := by
  unfold transitionState
  rw [h]
  simp [assertTransition, hv]

/-- C2 counterexample: replaying a delivery for a conversation already at
`INTENT_VALIDATED` (stale receipt reclaimed), the reasoner does NOT ignore
the `InvalidTransition` and continue: it throws (nack), publishes nothing,
and the conversation stays at `INTENT_VALIDATED` rather than moving to
`ACTION_REQUESTED`. -/
theorem reasonerHandler_resumed_counterexample :
    (reasonerHandler eventResumed uuidA uuidB "e2" 300000 storeResumed).1 ≠ HandlerOutcome.acked
    ∧ (reasonerHandler eventResumed uuidA uuidB "e2" 300000 storeResumed).2.2 = []
    ∧ (lookupA "c1" (reasonerHandler eventResumed uuidA uuidB "e2" 300000 storeResumed).2.1.conversations).map Conversation.state = some ConversationState.INTENT_VALIDATED := by
  refine ⟨?_, rfl, rfl⟩
  decide

/-- C2 (amended): when the reasoner replays a delivery whose conversation
is already at `INTENT_VALIDATED`, the attempted `→ INTENT_VALIDATED`
transition fails with `InvalidTransition` and the error propagates out of
the handler (nack): the outcome is `failed`, no `action_requested` is
published, and the conversation document is left unchanged. -/
theorem reasonerHandler_resumed_fails (ev : AgentEvent) (u fb aeid : String)
    (now : Nat) (s : Store) (conv : Conversation)
    (hconv : lookupA ev.conversationId s.conversations = some conv)
    (hstate : conv.state = .INTENT_VALIDATED)
    (hclaim : (claimReceipt ev.eventId ⟨"reasoner", ev.conversationId, ev.messageId⟩ now s).1 = true)
    (hcid : ev.conversationId ≠ "") (hmid : ev.messageId ≠ "")
    (hu : isUuid u = true) :
    (reasonerHandler ev u fb aeid now s).1 =
      .failed (invalidTransitionMsg .INTENT_VALIDATED .INTENT_VALIDATED)
    ∧ (reasonerHandler ev u fb aeid now s).2.2 = []
    ∧ lookupA ev.conversationId (reasonerHandler ev u fb aeid now s).2.1.conversations = some conv := by
  have hcc := claimReceipt_conversations ev.eventId ⟨"reasoner", ev.conversationId, ev.messageId⟩ now s
  have hv := mockReasoning_valid (((Json.field ev.payload "content").bind Json.asStr).getD "")
    ev.conversationId ev.messageId u hcid hmid hu
  simp only [reasonerHandler, hclaim, Bool.not_true, if_false, hv]
  rw [if_neg Bool.false_ne_true, if_neg Bool.false_ne_true]
  set raw := mockReasoning (((Json.field ev.payload "content").bind Json.asStr).getD "") ev.conversationId ev.messageId u with hraw
  set doc := mkIntentDoc raw ev.conversationId ev.messageId fb now (validateIntent raw) with hdoc
  set s2 := logEvent ev.conversationId ev.eventId "reasoning_completed" [("intentId", Json.str doc.intentId), ("valid", Json.bool true)] now (saveIntent doc (claimReceipt ev.eventId ⟨"reasoner", ev.conversationId, ev.messageId⟩ now s).2) with hs2
  have hlook : lookupA ev.conversationId s2.conversations = some conv := by
    rw [hs2]
    simp only [logEvent, saveIntent]
    rw [hcc]
    exact hconv
  have htr : transitionState ev.conversationId .INTENT_VALIDATED now s2 =
      .error (invalidTransitionMsg .INTENT_VALIDATED .INTENT_VALIDATED) := by
    have h1 := transitionState_error_of_invalid ev.conversationId .INTENT_VALIDATED now s2 conv hlook (by rw [hstate]; decide)
    rwa [hstate] at h1
  rw [htr]
  exact ⟨rfl, rfl, hlook⟩

/-- C2 witness: the amended behaviour at the concrete resumed store. -/
theorem reasonerHandler_resumed_fails_witness :
    (reasonerHandler eventResumed uuidA uuidB "e2" 300000 storeResumed).1 =
      .failed (invalidTransitionMsg .INTENT_VALIDATED .INTENT_VALIDATED)
    ∧ (reasonerHandler eventResumed uuidA uuidB "e2" 300000 storeResumed).2.2 = []
    ∧ lookupA "c1" (reasonerHandler eventResumed uuidA uuidB "e2" 300000 storeResumed).2.1.conversations = some convResumed :=
  reasonerHandler_resumed_fails eventResumed uuidA uuidB "e2" 300000 storeResumed
    convResumed rfl rfl (by decide) (by decide) (by decide) (by decide)

-- ── Executor branches (claim C8) ──

theorem claimReceipt_actions (e : String) (m : ReceiptMeta) (now : Nat)
    (s : Store) : (claimReceipt e m now s).2.actions = s.actions := by
  unfold claimReceipt
  repeat' split
  all_goals rfl

theorem completeReceipt_status (e : String) (now : Nat) (s : Store) :
    (lookupA e (completeReceipt e now s).receipts).map Receipt.status = some "completed" := by
  unfold completeReceipt
  cases h : lookupA e s.receipts with
  | none => simp [lookupA_insertA_self]
  | some r => simp [lookupA_insertA_self]

theorem completeReceipt_actions (e : String) (now : Nat) (s : Store) :
    (completeReceipt e now s).actions = s.actions := by
  unfold completeReceipt
  split
  all_goals rfl

theorem completeReceipt_conversations (e : String) (now : Nat) (s : Store) :
    (completeReceipt e now s).conversations = s.conversations := by
  unfold completeReceipt
  split
  all_goals rfl

/-- C8: for a delivered `action_requested` event that passes the receipt
claim (`claimReceipt` returns `true` — whether by fresh claim or by
stale-receipt reclamation) and the result-existence check, with the
conversation at `ACTION_REQUESTED`: the executor persists the
`ActionResult` carrying the tool's `success`/`error`, transitions to
`FAILED_EXECUTION` when the tool fails and to `ACTION_COMPLETED` when it
succeeds, completes the receipt, and acks. -/
theorem executorHandler_spec (ev : AgentEvent) (aid : String) (now : Nat)
    (s : Store) (conv : Conversation)
    (hclaim : (claimReceipt ev.eventId ⟨"executor", ev.conversationId, ev.messageId⟩ now s).1 = true)
    (hconv : lookupA ev.conversationId s.conversations = some conv)
    (hstate : conv.state = .ACTION_REQUESTED)
    (hnores : findActionResultByIntentId ev.conversationId
      (((Json.field ev.payload "intentId").bind Json.asStr).getD "undefined") s = false) :
    (let intentId := ((Json.field ev.payload "intentId").bind Json.asStr).getD "undefined"
     let t := executeTool (((Json.field ev.payload "action").bind Json.asStr).getD "undefined") (jsObjFieldOr (Json.obj ev.payload) "parameters" [])
     (executorHandler ev aid now s).1 = .acked
     ∧ (lookupA ev.eventId (executorHandler ev aid now s).2.receipts).map Receipt.status = some "completed"
     ∧ lookupA (ev.conversationId, aid) (executorHandler ev aid now s).2.actions = some ⟨aid, ev.conversationId, intentId, ev.messageId, t.result, now, t.success, t.error⟩
     ∧ lookupA ev.conversationId (executorHandler ev aid now s).2.conversations = some { conv with state := if t.success then .ACTION_COMPLETED else .FAILED_EXECUTION, updatedAt := now }) := by
  simp only [executorHandler, hclaim, Bool.not_true]
  rw [if_neg Bool.false_ne_true]
  simp only [findActionResultByIntentId] at hnores ⊢
  simp only [claimReceipt_actions, hnores]
  rw [if_neg Bool.false_ne_true]
  rcases ht : (executeTool (((Json.field ev.payload "action").bind Json.asStr).getD "undefined") (jsObjFieldOr (Json.obj ev.payload) "parameters" [])).success with _ | _
  · rw [if_neg Bool.false_ne_true]
    set doc : ActionResult := ⟨aid, ev.conversationId, ((Json.field ev.payload "intentId").bind Json.asStr).getD "undefined", ev.messageId, (executeTool (((Json.field ev.payload "action").bind Json.asStr).getD "undefined") (jsObjFieldOr (Json.obj ev.payload) "parameters" [])).result, now, false, (executeTool (((Json.field ev.payload "action").bind Json.asStr).getD "undefined") (jsObjFieldOr (Json.obj ev.payload) "parameters" [])).error⟩ with hdoc
    set s3 := logEvent ev.conversationId ev.eventId "action_executed" [("actionId", Json.str aid), ("success", Json.bool false)] now (saveActionResult doc (claimReceipt ev.eventId ⟨"executor", ev.conversationId, ev.messageId⟩ now s).2) with hs3
    have hlook : lookupA ev.conversationId s3.conversations = some conv := by
      rw [hs3]
      simp only [logEvent, saveActionResult]
      rw [claimReceipt_conversations]
      exact hconv
    rw [transitionState_ok_of_valid ev.conversationId .FAILED_EXECUTION now s3 conv hlook (by rw [hstate]; decide)]
    refine ⟨rfl, ?_, ?_, ?_⟩
    · exact completeReceipt_status ev.eventId now _
    · simp [completeReceipt_actions, hs3, logEvent, saveActionResult, lookupA_insertA_self, hdoc, ht]
    · simp [completeReceipt_conversations, hs3, lookupA_insertA_self, ht]
  · rw [if_pos rfl]
    set doc : ActionResult := ⟨aid, ev.conversationId, ((Json.field ev.payload "intentId").bind Json.asStr).getD "undefined", ev.messageId, (executeTool (((Json.field ev.payload "action").bind Json.asStr).getD "undefined") (jsObjFieldOr (Json.obj ev.payload) "parameters" [])).result, now, true, (executeTool (((Json.field ev.payload "action").bind Json.asStr).getD "undefined") (jsObjFieldOr (Json.obj ev.payload) "parameters" [])).error⟩ with hdoc
    set s3 := logEvent ev.conversationId ev.eventId "action_executed" [("actionId", Json.str aid), ("success", Json.bool true)] now (saveActionResult doc (claimReceipt ev.eventId ⟨"executor", ev.conversationId, ev.messageId⟩ now s).2) with hs3
    have hlook : lookupA ev.conversationId s3.conversations = some conv := by
      rw [hs3]
      simp only [logEvent, saveActionResult]
      rw [claimReceipt_conversations]
      exact hconv
    rw [transitionState_ok_of_valid ev.conversationId .ACTION_COMPLETED now s3 conv hlook (by rw [hstate]; decide)]
    refine ⟨rfl, ?_, ?_, ?_⟩
    · exact completeReceipt_status ev.eventId now _
    · simp [completeReceipt_actions, hs3, logEvent, saveActionResult, lookupA_insertA_self, hdoc, ht]
    · simp [completeReceipt_conversations, hs3, lookupA_insertA_self, ht]

/-- C8 witness: the unknown action `dance` fails the tool, the result is
persisted with the error and the conversation ends `FAILED_EXECUTION`
(both from a fresh receipt and from a stale-receipt reclamation pass);
the known action `search` succeeds and ends `ACTION_COMPLETED`. -/
theorem executorHandler_spec_witness :
    (executorHandler eventDance uuidB 9 storeActionRequested).1 = .acked
    ∧ lookupA ("c8", uuidB) (executorHandler eventDance uuidB 9 storeActionRequested).2.actions =
        some ⟨uuidB, "c8", uuidA, "m8", [], 9, false, some "Unknown action: dance"⟩
    ∧ lookupA "c8" (executorHandler eventDance uuidB 9 storeActionRequested).2.conversations =
        some ⟨"c8", .FAILED_EXECUTION, 0, 9⟩
    ∧ lookupA "c8" (executorHandler eventSearch uuidB 9 storeActionRequested).2.conversations =
        some ⟨"c8", .ACTION_COMPLETED, 0, 9⟩
    ∧ lookupA "c8" (executorHandler eventDance uuidB 300000 storeActionRequestedStale).2.conversations =
        some ⟨"c8", .FAILED_EXECUTION, 0, 300000⟩ := by
  have h1 := executorHandler_spec eventDance uuidB 9 storeActionRequested
    ⟨"c8", .ACTION_REQUESTED, 0, 0⟩ (by decide) rfl rfl (by decide)
  have h2 := executorHandler_spec eventSearch uuidB 9 storeActionRequested
    ⟨"c8", .ACTION_REQUESTED, 0, 0⟩ (by decide) rfl rfl (by decide)
  have h3 := executorHandler_spec eventDance uuidB 300000 storeActionRequestedStale
    ⟨"c8", .ACTION_REQUESTED, 0, 0⟩ (by decide) rfl rfl (by decide)
  exact ⟨h1.1, h1.2.2.1, h1.2.2.2, h2.2.2.2, h3.2.2.2⟩
